import Mathlib

/-!
Shallow embedding of `src/cpp/src/DynamicArray.h` (class
`DynamicArray<T, Alloc>`).

The C++ object stores three raw cursors into a single heap allocation:

  T * head;     -- start of the allocation
  T * tail;     -- one past the last live element
  T * tailCap;  -- one past the end of the region the object believes it owns

The embedding abstracts addresses away and keeps, per container:

  * `live`       : the list of live element values, i.e. the contents of
                   `[head, tail)` in order, so `tail - head = live.length`;
  * `tailCapOff` : `tailCap - head`, the quantity `capacity()` reports;
  * `allocLen`   : the number of slots in the allocation `head` points at.

In a healthy state `tailCapOff = allocLen`; the copy constructor breaks that
equality (`Init` allocates `other.size()` slots yet the constructor sets
`tailCap = head + other.capacity()`), which is why the two are tracked
separately.

Identifier slips in the source that do not change the evident meaning are
resolved as follows: `reserve` (line 265) and `resize` (line 273) call
`Reallocate`, which does not exist; the private member `Realloc` (line 355)
is the evident target, and the claims map those calls to it as well.  In
`resize`, the shrink branch sets `tail = head + low` (line 285) where `low`
is undeclared; `newSize` is the evident meaning.  `Init` writes
`Alloc alloc(get_allocator)` (lines 336, 347) for `Alloc alloc(Alloc())`;
the allocator identity does not matter to the embedding.

The aliasing corner cases (self copy-assignment, self move-assignment) are
modelled by replaying the member-assignment sequence on the single object;
self copy-assignment additionally needs raw addresses and gets a dedicated
address-level model at the end of the definitions.
-/

set_option autoImplicit false

structure DynamicArray (T : Type) where
  allocLen : Nat
  live : List T
  tailCapOff : Nat
  deriving DecidableEq

namespace DynamicArray

variable {T : Type}

/-- `size()`: `static_cast<size_type>(tail - head)` (line 118). -/
def size (a : DynamicArray T) : Nat := a.live.length

/-- `capacity()`: `static_cast<size_type>(tailCap - head)` (line 123). -/
def capacity (a : DynamicArray T) : Nat := a.tailCapOff

/-- `DynamicArray()` (line 61): `head = tail = tailCap = nullptr`, the empty
sentinel. -/
def mkEmpty : DynamicArray T := ⟨0, [], 0⟩

/-- `DynamicArray(n, value)` (line 67): `head = Init(n, value)` (allocate
`n` slots and construct `n` copies of `value`, lines 334-342),
`tail = head + n`, `tailCap = tail`. -/
def mkFill (n : Nat) (value : T) : DynamicArray T :=
  ⟨n, List.replicate n value, n⟩

/-- `DynamicArray(other)`, the copy constructor (line 73):
`head = Init(other)` (allocate `other.size()` slots and copy-construct the
live elements of `other` in order, lines 344-353), `tail = head + other.size()`,
`tailCap = head + other.capacity()`.  Note that `tailCap` is computed from
`other.capacity()` although the allocation holds only `other.size()` slots. -/
def mkCopy (other : DynamicArray T) : DynamicArray T :=
  ⟨other.size, other.live, other.capacity⟩

/-- The move constructor (line 79): steal the three cursors, then null
`other`'s cursors.  First component: the new container; second component:
`other` afterwards. -/
def mkMove (other : DynamicArray T) : DynamicArray T × DynamicArray T :=
  (⟨other.allocLen, other.live, other.tailCapOff⟩, mkEmpty)

/-- Copy assignment (line 89) for a source distinct from the destination:
`head = Init(other)` (a fresh `other.size()`-slot allocation holding copies
of `other`'s live elements), `tail = head + other.size()`, `tailCap = tail`.
The destination's previous buffer is abandoned without destruction.  First
component: the destination afterwards; second component: the source,
untouched. -/
def copyAssign (_dst other : DynamicArray T) : DynamicArray T × DynamicArray T :=
  (⟨other.size, other.live, other.size⟩, other)

/-- Move assignment (line 97) for a source distinct from the destination:
adopt `other`'s three cursors, then null `other`'s cursors.  The
destination's previous buffer is abandoned without destruction.  First
component: the destination afterwards; second component: the source. -/
def moveAssign (_dst other : DynamicArray T) : DynamicArray T × DynamicArray T :=
  (⟨other.allocLen, other.live, other.tailCapOff⟩, mkEmpty)

/-- Move assignment (line 97) when `other` aliases `*this`: the three cursor
self-assignments (`head = std::move(other.head)` and so on) leave the state
unchanged, and the subsequent nulling of `other`'s cursors (lines 102-104)
nulls this object's cursors, producing the empty sentinel whatever the
previous contents were. -/
def selfMoveAssign (_a : DynamicArray T) : DynamicArray T := mkEmpty

/-- `RangeGuard(index)` (line 327): throws `std::out_of_range` iff
`index > size()`.  Returns whether the guard signals. -/
def RangeGuardThrows (a : DynamicArray T) (index : Nat) : Bool :=
  decide (a.size < index)

/-- `at(index)` (line 151): `RangeGuard(index)` then `operator[](index)`.
`Except.error ()` models the thrown `std::out_of_range`.  When the guard
passes, `operator[]` reads `head[index]` (line 143); an index with no live
element there (the guard lets `index = size()` through) yields no defined
value, modelled as `none`. -/
def atAccess (a : DynamicArray T) (index : Nat) : Except Unit (Option T) :=
  if a.size < index then Except.error () else Except.ok a.live[index]?

/-- `Realloc(newCapacity)` (line 355): allocate `newCapacity` slots,
copy-construct the `n = size()` live elements into them in order, then set
`head`, `tail = newHead + n`, `tailCap = newHead + newCapacity`.  The old
buffer is abandoned without destruction. -/
def Realloc (newCapacity : Nat) (a : DynamicArray T) : DynamicArray T :=
  ⟨newCapacity, a.live, newCapacity⟩

/-- `AmortizedGrowSize()` (line 316): `(n / 2) + n + 1` with `n = size()`. -/
def AmortizedGrowSize (a : DynamicArray T) : Nat :=
  a.size / 2 + a.size + 1

/-- `reserve(n)` (line 262): `if (n > size()) Realloc(n)` (the source
writes `Reallocate`; see the header comment). -/
def reserve (n : Nat) (a : DynamicArray T) : DynamicArray T :=
  if a.size < n then Realloc n a else a

/-- `resize(newSize, value)` (line 269): with `oldSize = size()`, if
`newSize > oldSize` then `Realloc(newSize)`, construct copies of `value`
into slots `[oldSize, newSize)` and set `tail = head + newSize`; if
`newSize < oldSize` then destroy the live elements in `[newSize, oldSize)`
(descending) and set `tail = head + newSize`; otherwise do nothing. -/
def resize (newSize : Nat) (value : T) (a : DynamicArray T) : DynamicArray T :=
  if a.size < newSize then
    let a1 := Realloc newSize a
    { a1 with live := a1.live ++ List.replicate (newSize - a.size) value }
  else if newSize < a.size then
    { a with live := a.live.take newSize }
  else a

/-- `PushBack(value)` (line 306), the body of both `push_back` overloads
(lines 289 and 294): if `size() == capacity()` then `AmortizedGrow()`
(that is, `Realloc(AmortizedGrowSize())`, lines 322-325), then construct
`value` at `tail` and increment `tail`. -/
def push_back (value : T) (a : DynamicArray T) : DynamicArray T :=
  if a.size = a.capacity then
    let a1 := Realloc (AmortizedGrowSize a) a
    { a1 with live := a1.live ++ [value] }
  else
    { a with live := a.live ++ [value] }

/-- `pop_back()` (line 299): destroy `*(tail - 1)` and decrement `tail`.
Documented unchecked precondition: the container is non-empty. -/
def pop_back (a : DynamicArray T) : DynamicArray T :=
  { a with live := a.live.dropLast }

/-- `clear()` (line 133): `Clear()` (destroy the live elements in reverse
order and deallocate, lines 368-375), then null the three cursors. -/
def clear (_a : DynamicArray T) : DynamicArray T := mkEmpty

/-- `release()` (line 183): hand the buffer (with its live elements, first
component) to the caller and null the three cursors. -/
def release (a : DynamicArray T) : List T × DynamicArray T :=
  (a.live, mkEmpty)

/-- Iterated `push_back`, front of the list first. -/
def pushAll (vs : List T) (a : DynamicArray T) : DynamicArray T :=
  vs.foldl (fun s v => push_back v s) a

/-- Address-level model of copy assignment (line 89) when `other` aliases
`*this`.  Arguments: the old `head` and `tail` addresses and the address of
the fresh allocation returned by `Init(other)` (which itself completes
correctly, reading the still-intact old buffer).  The member assignments

  head = Init(other); tail = head + other.size(); tailCap = tail;

are replayed in order: when `tail` is assigned, `other.size()` evaluates
`tail - head` with `head` already moved to the fresh allocation while
`tail` still marks the old buffer's end.  Returns the resulting
`(head, tail, tailCap)` addresses. -/
def selfCopyAssignCursors (_headAddr tailAddr newHeadAddr : Int) : Int × Int × Int :=
  let head1 := newHeadAddr
  let tail1 := head1 + (tailAddr - head1)
  (head1, tail1, tail1)

/-- `size()` reported after the aliased copy assignment: `tail - head` on
the cursors produced by `selfCopyAssignCursors`. -/
def selfCopyAssignSize (headAddr tailAddr newHeadAddr : Int) : Int :=
  (selfCopyAssignCursors headAddr tailAddr newHeadAddr).2.1 -
    (selfCopyAssignCursors headAddr tailAddr newHeadAddr).1

/-- The invariant relating the two derived quantities: `size() ≤ capacity()`. -/
abbrev SizeLeCap (a : DynamicArray T) : Prop := a.size ≤ a.capacity

/-- A copy source with slack: size 1, capacity 2, built by two appends and
one removal. -/
def copySource : DynamicArray Nat :=
  pop_back (push_back 2 (push_back 1 mkEmpty))

theorem live_push_back (value : T) (a : DynamicArray T) :
    (push_back value a).live = a.live ++ [value] := by
  unfold push_back
  split <;> rfl

theorem size_push_back (value : T) (a : DynamicArray T) :
    (push_back value a).size = a.size + 1 := by
  unfold size
  rw [live_push_back]
  simp

theorem capacity_push_back (value : T) (a : DynamicArray T) :
    (push_back value a).capacity =
      if a.size = a.capacity then a.size / 2 + a.size + 1 else a.capacity := by
  unfold push_back
  split <;> rename_i h <;> simp [capacity, Realloc, AmortizedGrowSize, h]

theorem live_pushAll (vs : List T) (a : DynamicArray T) :
    (pushAll vs a).live = a.live ++ vs := by
  induction vs generalizing a with
  | nil => simp [pushAll]
  | cons v vs ih =>
      have h : pushAll (v :: vs) a = pushAll vs (push_back v a) := rfl
      rw [h, ih, live_push_back]
      simp

/-- Claim C1: the claim fails on the code.  `RangeGuard` fires only for
`index > size()`, so `at(size())` is let through: on the empty container
`at(0)` signals no error and reads a slot holding no live element, and on a
size-1 container `at(1)` does the same, while `at(0)` there returns the
last live element and `at(2)` is rejected. -/
theorem C1_at_boundary_not_rejected :
    RangeGuardThrows (mkEmpty : DynamicArray Nat) 0 = false ∧
    atAccess (mkEmpty : DynamicArray Nat) 0 = Except.ok none ∧
    atAccess (push_back 1 (mkEmpty : DynamicArray Nat)) 1 = Except.ok none ∧
    atAccess (push_back 1 (mkEmpty : DynamicArray Nat)) 0 = Except.ok (some 1) ∧
    RangeGuardThrows (push_back 1 (mkEmpty : DynamicArray Nat)) 2 = true :=
  ⟨rfl, rfl, rfl, rfl, rfl⟩

/-- Claim C2, counterexample: on a container with size 0 and capacity 2
(`reserve 2` from empty), `reserve 1` is not a no-op although 1 does not
exceed the capacity: the capacity drops from 2 to 1. -/
theorem C2_reserve_noop_counterexample :
    capacity (reserve 2 (mkEmpty : DynamicArray Nat)) = 2 ∧
    capacity (reserve 1 (reserve 2 (mkEmpty : DynamicArray Nat))) = 1 ∧
    reserve 1 (reserve 2 (mkEmpty : DynamicArray Nat)) ≠
      reserve 2 (mkEmpty : DynamicArray Nat) := by
  refine ⟨rfl, rfl, ?_⟩
  decide

/-- Claim C2, amended: `reserve` compares `n` against `size()`, not
`capacity()`.  It is a no-op exactly when `n ≤ size()`; whenever
`size() < n` it reallocates so that `capacity()` becomes exactly `n`
(which shrinks the capacity when `size() < n < capacity()`).  The size and
the live elements (values and order) are always preserved.  In particular,
when `capacity() < n` the capacity becomes exactly `n`, not grown
further. -/
theorem C2_reserve_characterization {T : Type} (a : DynamicArray T) (n : Nat) :
    (reserve n a).live = a.live ∧
    (reserve n a).size = a.size ∧
    (reserve n a).capacity = (if a.size < n then n else a.capacity) ∧
    reserve n a = (if a.size < n then (⟨n, a.live, n⟩ : DynamicArray T) else a) := by
  by_cases h : a.live.length < n <;>
    simp [reserve, Realloc, size, capacity, h]

/-- Claim C3: the copy constructor is not size-tight in its reported
capacity.  Copying a container with size 1 and capacity 2 preserves the
size and the elements, but the copy reports `capacity() = 2` although the
fresh allocation made by `Init` holds only 1 slot
(`allocLen = 1 < tailCapOff = 2`), contradicting both the claim
(`capacity() == other.size()`) and the cursor model. -/
theorem C3_copy_capacity_divergence :
    size (mkCopy copySource) = 1 ∧
    capacity (mkCopy copySource) = 2 ∧
    (mkCopy copySource).allocLen = 1 ∧
    (mkCopy copySource).live = [1] ∧
    size copySource = 1 ∧ capacity copySource = 2 := by
  refine ⟨rfl, rfl, rfl, rfl, rfl, rfl⟩

/-- Claim C4: move construction and (non-aliased) move assignment transfer
the three cursors verbatim to the destination, whose state is therefore the
source's old state, and leave the source in the empty sentinel with size 0
and capacity 0. -/
theorem C4_move_transfer {T : Type} (a b : DynamicArray T) :
    (mkMove a).1 = a ∧ (mkMove a).2 = mkEmpty ∧
    size (mkMove a).2 = 0 ∧ capacity (mkMove a).2 = 0 ∧
    (moveAssign b a).1 = a ∧ (moveAssign b a).2 = mkEmpty ∧
    size (moveAssign b a).2 = 0 ∧ capacity (moveAssign b a).2 = 0 :=
  ⟨rfl, rfl, rfl, rfl, rfl, rfl, rfl, rfl⟩

/-- Claim C5: when `size() = capacity()` (capacity 0 and 1 included, since
the statement is universally quantified), `push_back` grows the capacity to
`capacity + capacity/2 + 1`, strictly more than the old capacity. -/
theorem C5_push_back_growth {T : Type} (a : DynamicArray T) (value : T)
    (h : a.size = a.capacity) :
    capacity (push_back value a) = a.capacity + a.capacity / 2 + 1 ∧
    a.capacity < capacity (push_back value a) := by
  have hc := capacity_push_back value a
  rw [if_pos h, h] at hc
  rw [hc]
  omega

/-- Witness for C5 at the empty container (size = capacity = 0). -/
theorem C5_push_back_growth_witness :
    (mkEmpty : DynamicArray Nat).size = (mkEmpty : DynamicArray Nat).capacity ∧
    (capacity (push_back 7 (mkEmpty : DynamicArray Nat)) =
        (mkEmpty : DynamicArray Nat).capacity +
          (mkEmpty : DynamicArray Nat).capacity / 2 + 1 ∧
      (mkEmpty : DynamicArray Nat).capacity <
        capacity (push_back 7 (mkEmpty : DynamicArray Nat))) :=
  ⟨rfl, C5_push_back_growth (mkEmpty : DynamicArray Nat) 7 rfl⟩

/-- Claim C6: pushing the values of `vs` in order onto the empty container
yields size `vs.length` and exactly `vs` as the live elements, in insertion
order; moreover every single `push_back` increments the size by exactly
one. -/
theorem C6_push_back_sequence {T : Type} (vs : List T) :
    size (pushAll vs (mkEmpty : DynamicArray T)) = vs.length ∧
    (pushAll vs (mkEmpty : DynamicArray T)).live = vs ∧
    ∀ (a : DynamicArray T) (value : T), size (push_back value a) = size a + 1 := by
  refine ⟨?_, ?_, fun a value => size_push_back value a⟩
  · unfold size
    rw [live_pushAll]
    simp [mkEmpty]
  · rw [live_pushAll]
    simp [mkEmpty]

/-- Claim C7, counterexample: on a container with size 0 and capacity 10,
growing via `resize 5` does not keep the capacity at 10 (the claim requires
the capacity of an already-large-enough container to stay unchanged): the
growing branch reallocates unconditionally and the capacity becomes 5. -/
theorem C7_resize_capacity_counterexample :
    capacity (reserve 10 (mkEmpty : DynamicArray Nat)) = 10 ∧
    size (reserve 10 (mkEmpty : DynamicArray Nat)) = 0 ∧
    capacity (resize 5 9 (reserve 10 (mkEmpty : DynamicArray Nat))) = 5 ∧
    (resize 5 9 (reserve 10 (mkEmpty : DynamicArray Nat))).live = [9, 9, 9, 9, 9] :=
  ⟨rfl, rfl, rfl, rfl⟩

/-- Claim C7, amended: `resize(newSize, value)` with `newSize > oldSize`
reallocates to capacity exactly `newSize` even when `capacity() ≥ newSize`
already (so the capacity can shrink), then fills `[oldSize, newSize)` with
copies of `value`; the first `oldSize` elements are kept in order and
`size() = newSize`.  With `newSize < oldSize` it keeps the surviving prefix
of length `newSize` and does not change the capacity; with
`newSize = oldSize` it is a no-op. -/
theorem C7_resize_characterization {T : Type} (a : DynamicArray T) (n : Nat)
    (value : T) :
    (resize n value a).live =
      (if a.size < n then a.live ++ List.replicate (n - a.size) value
       else a.live.take n) ∧
    size (resize n value a) = (if a.size < n then n else min n a.size) ∧
    capacity (resize n value a) = (if a.size < n then n else a.capacity) := by
  by_cases h1 : a.live.length < n
  · simp [resize, Realloc, size, capacity, h1]
    omega
  · by_cases h2 : n < a.live.length
    · simp [resize, size, capacity, h1, h2, List.length_take]
    · have h3 : n = a.live.length := by omega
      subst h3
      simp [resize, size, capacity, List.take_length]

/-- Claim C8: self copy-assignment is not a correctness no-op.  With the
old buffer at address 0 holding one live element (`tail = 1`) and the fresh
copy allocated at address 100, replaying
`head = Init(other); tail = head + other.size(); tailCap = tail` leaves
`tail` at the old buffer's end while `head` points into the new buffer, so
the reported size is `oldTail - newHead = -99` instead of 1, and it changes
with the allocator's choice of address (7 gives a different size). -/
theorem C8_self_copy_assign_divergence :
    selfCopyAssignSize 0 1 100 = -99 ∧
    selfCopyAssignSize 0 1 100 ≠ 1 ∧
    selfCopyAssignSize 0 1 100 ≠ selfCopyAssignSize 0 1 7 :=
  ⟨rfl, by decide, by decide⟩

/-- Claim C9: the modeled operations preserve `size() ≤ capacity()`
(for `pop_back` under its documented non-emptiness precondition, and for
the operations that read an existing container provided that container
satisfies the invariant), and the empty sentinel has size 0 and capacity 0.
Size and capacity are computed from the container state here exactly as the
code derives them from the three stored cursors. -/
theorem C9_invariant_preserved {T : Type} (a b : DynamicArray T) (value : T)
    (n : Nat) (ha : SizeLeCap a) :
    ((mkEmpty : DynamicArray T).size = 0 ∧ (mkEmpty : DynamicArray T).capacity = 0) ∧
    SizeLeCap (mkFill n value) ∧
    SizeLeCap (mkCopy a) ∧
    SizeLeCap (mkMove a).1 ∧ SizeLeCap (mkMove a).2 ∧
    SizeLeCap (copyAssign b a).1 ∧ SizeLeCap (copyAssign b a).2 ∧
    SizeLeCap (moveAssign b a).1 ∧ SizeLeCap (moveAssign b a).2 ∧
    SizeLeCap (selfMoveAssign a) ∧
    SizeLeCap (reserve n a) ∧
    SizeLeCap (resize n value a) ∧
    SizeLeCap (push_back value a) ∧
    (0 < a.size → SizeLeCap (pop_back a)) ∧
    SizeLeCap (clear a) ∧
    SizeLeCap (release a).2 := by
  unfold SizeLeCap size capacity at ha ⊢
  refine ⟨⟨rfl, rfl⟩, ?_, ?_, ha, ?_, ?_, ha, ha, ?_, ?_, ?_, ?_, ?_, ?_, ?_, ?_⟩
  · simp [mkFill]
  · simp [mkCopy, size, capacity]
    exact ha
  · simp [mkMove, mkEmpty]
  · simp [copyAssign, size]
  · simp [moveAssign, mkEmpty]
  · simp [selfMoveAssign, mkEmpty]
  · by_cases h : a.live.length < n
    · simp [reserve, Realloc, size, h]
      omega
    · simp [reserve, Realloc, size, h]
      exact ha
  · by_cases h1 : a.live.length < n
    · simp [resize, Realloc, size, h1]
      omega
    · by_cases h2 : n < a.live.length
      · simp [resize, size, h1, h2, List.length_take]
        omega
      · simp [resize, size, h1, h2]
        exact ha
  · by_cases h : a.live.length = a.tailCapOff
    · simp [push_back, Realloc, AmortizedGrowSize, size, capacity, h]
    · simp [push_back, Realloc, AmortizedGrowSize, size, capacity, h]
      omega
  · intro _
    simp [pop_back, List.length_dropLast]
    omega
  · simp [clear, mkEmpty]
  · simp [release, mkEmpty]

/-- Witness for C9: a size-1, capacity-1 container for `a` (so the
`pop_back` precondition is concrete as well) and the empty container for
`b`. -/
theorem C9_invariant_preserved_witness :
    SizeLeCap (push_back 1 (mkEmpty : DynamicArray Nat)) ∧
    0 < (push_back 1 (mkEmpty : DynamicArray Nat)).size ∧
    (((mkEmpty : DynamicArray Nat).size = 0 ∧
        (mkEmpty : DynamicArray Nat).capacity = 0) ∧
      SizeLeCap (mkFill 3 5) ∧
      SizeLeCap (mkCopy (push_back 1 (mkEmpty : DynamicArray Nat))) ∧
      SizeLeCap (mkMove (push_back 1 (mkEmpty : DynamicArray Nat))).1 ∧
      SizeLeCap (mkMove (push_back 1 (mkEmpty : DynamicArray Nat))).2 ∧
      SizeLeCap (copyAssign (mkEmpty : DynamicArray Nat)
        (push_back 1 (mkEmpty : DynamicArray Nat))).1 ∧
      SizeLeCap (copyAssign (mkEmpty : DynamicArray Nat)
        (push_back 1 (mkEmpty : DynamicArray Nat))).2 ∧
      SizeLeCap (moveAssign (mkEmpty : DynamicArray Nat)
        (push_back 1 (mkEmpty : DynamicArray Nat))).1 ∧
      SizeLeCap (moveAssign (mkEmpty : DynamicArray Nat)
        (push_back 1 (mkEmpty : DynamicArray Nat))).2 ∧
      SizeLeCap (selfMoveAssign (push_back 1 (mkEmpty : DynamicArray Nat))) ∧
      SizeLeCap (reserve 3 (push_back 1 (mkEmpty : DynamicArray Nat))) ∧
      SizeLeCap (resize 3 5 (push_back 1 (mkEmpty : DynamicArray Nat))) ∧
      SizeLeCap (push_back 5 (push_back 1 (mkEmpty : DynamicArray Nat))) ∧
      (0 < (push_back 1 (mkEmpty : DynamicArray Nat)).size →
        SizeLeCap (pop_back (push_back 1 (mkEmpty : DynamicArray Nat)))) ∧
      SizeLeCap (clear (push_back 1 (mkEmpty : DynamicArray Nat))) ∧
      SizeLeCap (release (push_back 1 (mkEmpty : DynamicArray Nat))).2) :=
  ⟨by decide, by decide,
    C9_invariant_preserved (push_back 1 (mkEmpty : DynamicArray Nat))
      (mkEmpty : DynamicArray Nat) 5 3 (by decide)⟩

/-- Claim C10: self move-assignment resets the container to the empty
sentinel (size 0, capacity 0), discarding its elements. -/
theorem C10_self_move_assign_empties {T : Type} (a : DynamicArray T) :
    selfMoveAssign a = mkEmpty ∧
    size (selfMoveAssign a) = 0 ∧ capacity (selfMoveAssign a) = 0 :=
  ⟨rfl, rfl, rfl⟩

end DynamicArray
